import Mathlib

/-!
Shallow embedding of the ingestion pipeline in `src/ingestion/ingest.py`
(classes `StructuredLogger` and `IngestionPipeline`), together with proofs
of the behavioural properties claimed for it.

Modelling conventions:
* A directory is `Option (List String)`: `none` means the directory does not
  exist; `some names` is the file listing in filesystem-enumeration order.
* The external Docling parser (`self.reader.load_data`) is a parameter
  `parse : String → Except String (List D)`; `.error e` models a raised
  exception with message `e`, `D` is the opaque document type.
* Raising an exception is modelled by `Except`; a function that returns a
  plain value (not `Except`) models code that cannot raise on the paths
  embedded here.
* Timestamps and wall-clock latencies are not modelled; log records keep
  their level, message and the context fields whose values the code
  computes from data we model.
* Python `Path.glob(f"*.{ext}")` is modelled as a suffix test on the file
  name (the extension strings in the configuration are assumed to contain
  no glob metacharacters, which holds for entries such as "pdf" or "txt").
* The Chroma collection map (of whichever backend was selected) is
  `ChromaState V : String → Option (List V)`: `none` means the named
  collection does not exist, `some vs` is its stored vector list, `V` the
  opaque vector type.
-/

namespace Ingest

/-- Log levels used by `StructuredLogger` (`info`, `warning`, `error`). -/
inductive LogLevel : Type
  | info
  | warning
  | error
deriving DecidableEq

/-- One structured log record: level, message, and context key-value fields
(the `**kwargs` of `StructuredLogger._log`); timestamp is not modelled. -/
structure LogRecord : Type where
  level : LogLevel
  message : String
  fields : List (String × String)
deriving DecidableEq

/-- Whether a log record is an error-level record. -/
def isErrorRecord (r : LogRecord) : Bool :=
  r.level = LogLevel.error

/-- Observable side effects of the pipeline, used to state what a run does
and does not do. `parseFile` is one invocation of the external Docling
reader; the store effects correspond to `os.makedirs`,
`chromadb.PersistentClient`, `chromadb.HttpClient`,
`client.delete_collection`, `client.get_or_create_collection`; `buildIndex`
is the single `VectorStoreIndex.from_documents` call. -/
inductive Effect (D : Type) : Type
  | parseFile (path : String)
  | makeDirs (path : String)
  | connectPersistent (path : String)
  | connectHttp (host : String) (port : Nat)
  | deleteColl (name : String)
  | getOrCreateColl (name : String)
  | buildIndex (docs : List D)
deriving DecidableEq

/-- Whether an effect touches the vector store backend (connection,
collection deletion or creation). -/
def isStoreEffect {D : Type} : Effect D → Bool
  | Effect.makeDirs _ => true
  | Effect.connectPersistent _ => true
  | Effect.connectHttp _ _ => true
  | Effect.deleteColl _ => true
  | Effect.getOrCreateColl _ => true
  | _ => false

/-- Whether an effect is the index-build call. -/
def isBuildIndexEffect {D : Type} : Effect D → Bool
  | Effect.buildIndex _ => true
  | _ => false

/-- Whether an effect is a collection deletion. -/
def isDeleteEffect {D : Type} : Effect D → Bool
  | Effect.deleteColl _ => true
  | _ => false

/-- Whether an effect is a directory creation (`os.makedirs`). -/
def isMakeDirsEffect {D : Type} : Effect D → Bool
  | Effect.makeDirs _ => true
  | _ => false

/-- Model of `data_dir.glob(f"*.{ext}")` membership: the file name ends with
"." followed by the extension string, compared case-sensitively. -/
def globMatch (ext : String) (name : String) : Bool :=
  ("." ++ ext).data.isSuffixOf name.data

/-- The file-collection loop of `load_documents` (lines building
`file_paths`): for each configured extension, in configuration order, all
files of the listing matching that extension, in listing
(filesystem-enumeration) order. -/
def matchedFiles (supported_formats : List String) (listing : List String) :
    List String :=
  supported_formats.flatMap fun ext => listing.filter (globMatch ext)

/-- A file name whose extension matches some element of the format set `S`
(case-sensitive suffix match). -/
def hasExtensionIn (S : List String) (name : String) : Bool :=
  S.any fun ext => globMatch ext name

/-- The documents the parser yields for a file, with a parse failure
contributing none. -/
def okDocs {D : Type} (parse : String → Except String (List D))
    (f : String) : List D :=
  match parse f with
  | Except.ok ds => ds
  | Except.error _ => []

/-- The error message of a failing parse (dummy for a successful one). -/
def errMsgOf {D : Type} (parse : String → Except String (List D))
    (f : String) : String :=
  match parse f with
  | Except.ok _ => ""
  | Except.error e => e

/-- The error record `load_documents` logs when a file fails to parse. -/
def loadErrorRecord (f e : String) : LogRecord :=
  ⟨LogLevel.error, "Failed to load document", [("file", f), ("error", e)]⟩

/-- The per-file loop of `load_documents`: try to parse each file; on
success append its documents and log at info level, on failure log at error
level and continue with the next file. Returns the accumulated documents,
the log records, and the parser-invocation effects, in loop order. -/
def loadLoop {D : Type} (parse : String → Except String (List D)) :
    List String → List D × List LogRecord × List (Effect D)
  | [] => ([], [], [])
  | f :: fs =>
    let rest := loadLoop parse fs
    match parse f with
    | Except.ok ds =>
        (ds ++ rest.1,
         ⟨LogLevel.info, "Loaded document",
           [("file", f), ("num_docs", toString ds.length)]⟩ :: rest.2.1,
         Effect.parseFile f :: rest.2.2)
    | Except.error e =>
        (rest.1,
         loadErrorRecord f e :: rest.2.1,
         Effect.parseFile f :: rest.2.2)

/-- Result of `load_documents`: the returned value (`Except` models the
raise path of the surrounding try block), the log records emitted, and the
effects performed. -/
structure LoadResult (D : Type) : Type where
  result : Except String (List D)
  logs : List LogRecord
  effects : List (Effect D)

/-- Model of `IngestionPipeline.load_documents`. The outer try/except re-raises only
failures of the existence check and the glob enumeration themselves, which
this model treats as infallible, so every embedded path returns `Except.ok`;
per-file parse failures are caught inside the loop by `loadLoop`. -/
def load_documents {D : Type} (supported_formats : List String)
    (parse : String → Except String (List D))
    (dirPath : String) (listing : Option (List String)) : LoadResult D :=
  match listing with
  | none =>
      { result := Except.ok []
        logs := [⟨LogLevel.error, "Data directory does not exist",
                   [("path", dirPath)]⟩]
        effects := [] }
  | some names =>
      let file_paths := matchedFiles supported_formats names
      if file_paths.isEmpty then
        { result := Except.ok []
          logs := [⟨LogLevel.warning, "No documents found",
                     [("directory", dirPath)]⟩]
          effects := [] }
      else
        let loop := loadLoop parse file_paths
        { result := Except.ok loop.1
          logs := ⟨LogLevel.info, "Found documents",
                     [("count", toString file_paths.length)]⟩ :: loop.2.1
                   ++ [⟨LogLevel.info, "Document loading complete",
                         [("total_documents", toString loop.1.length)]⟩]
          effects := loop.2.2 }

/-- The `vector_db` section of the configuration. `persist_directory` is
`Option` because the code reads it with `.get('persist_directory',
'./chroma_db')`. -/
structure VectorDbConfig : Type where
  host : String
  port : Nat
  collection_name : String
  persist_directory : Option String
deriving DecidableEq

/-- The Chroma client backend selected by `create_vector_store`. -/
inductive Backend : Type
  | persistent (path : String)
  | http (host : String) (port : Nat)
deriving DecidableEq

/-- The collection map of the selected Chroma backend: collection name to
stored vectors; `none` means no collection of that name exists. -/
def ChromaState (V : Type) : Type :=
  String → Option (List V)

/-- Model of `client.delete_collection(name=...)`: removes an existing collection;
raises (models Chroma's ValueError) when no collection of that name
exists. -/
def delete_collection {V : Type} (s : ChromaState V) (name : String) :
    Except String (ChromaState V) :=
  match s name with
  | some _ => Except.ok fun n => if n = name then none else s n
  | none => Except.error ("Collection " ++ name ++ " does not exist.")

/-- Model of `client.get_or_create_collection(name=...)`: keeps an existing
collection untouched, otherwise creates it empty. -/
def get_or_create_collection {V : Type} (s : ChromaState V)
    (name : String) : ChromaState V :=
  match s name with
  | some _ => s
  | none => fun n => if n = name then some [] else s n

/-- Result of `create_vector_store`: the selected backend, the collection
map afterwards, the log records, and the effects performed. -/
structure StoreResult (D V : Type) : Type where
  backend : Backend
  state : ChromaState V
  logs : List LogRecord
  effects : List (Effect D)

/-- Model of `IngestionPipeline.create_vector_store`. Selects the backend from the
configured host ("localhost" selects the embedded persistent client rooted
at the persist directory, created if absent; anything else the HTTP client
at host:port); when `reset` is set it attempts `delete_collection` and
swallows any failure (`except Exception: pass`); then gets-or-creates the
named collection. Backend connection failures (the raise path of the
surrounding try block) are not modelled, so every embedded path returns. -/
def create_vector_store {D V : Type} (cfg : VectorDbConfig) (reset : Bool)
    (s : ChromaState V) : StoreResult D V :=
  let backendEffects : List (Effect D) :=
    if cfg.host = "localhost" then
      [Effect.makeDirs (cfg.persist_directory.getD "./chroma_db"),
       Effect.connectPersistent (cfg.persist_directory.getD "./chroma_db")]
    else
      [Effect.connectHttp cfg.host cfg.port]
  let backend : Backend :=
    if cfg.host = "localhost" then
      Backend.persistent (cfg.persist_directory.getD "./chroma_db")
    else
      Backend.http cfg.host cfg.port
  let resetStep : ChromaState V × List LogRecord × List (Effect D) :=
    if reset then
      match delete_collection s cfg.collection_name with
      | Except.ok s₁ =>
          (s₁, [⟨LogLevel.info, "Deleted existing collection", []⟩],
           [Effect.deleteColl cfg.collection_name])
      | Except.error _ =>
          (s, [], [Effect.deleteColl cfg.collection_name])
    else
      (s, [], [])
  let s₂ := get_or_create_collection resetStep.1 cfg.collection_name
  { backend := backend
    state := s₂
    logs := resetStep.2.1
             ++ [⟨LogLevel.info, "Vector store ready",
                   [("collection", cfg.collection_name)]⟩]
    effects := backendEffects ++ resetStep.2.2
                ++ [Effect.getOrCreateColl cfg.collection_name] }

/-- The configuration fields `run` and `load_documents` read. -/
structure PipelineConfig : Type where
  supported_formats : List String
  data_directory : String
  vector_db : VectorDbConfig

/-- Model of `VectorStoreIndex.from_documents` persisting into the collection: the
chunk vectors of the new documents are added alongside whatever the
collection already holds. -/
def upsert_vectors {V : Type} (s : ChromaState V) (name : String)
    (vecs : List V) : ChromaState V :=
  fun n => if n = name then some (((s name).getD []) ++ vecs) else s n

/-- Result of `run`: `Except.ok none` models `return` with no index (Python
`None`), `Except.ok (some docs)` models returning the index built from
`docs`, `Except.error` the re-raise path; plus the final collection map,
log records, and effects. -/
structure RunResult (D V : Type) : Type where
  result : Except String (Option (List D))
  state : ChromaState V
  logs : List LogRecord
  effects : List (Effect D)

/-- Model of `IngestionPipeline.run`. Loads documents from the configured data
directory (`fsys` maps a path to its listing, `none` when absent); when the
loaded list is empty it logs an error and returns no index; otherwise it
opens the vector store, builds the index (chunking and embedding modelled
by `chunkEmbed : D → List V` per document) and stores the chunk vectors in
the configured collection. -/
def run {D V : Type} (cfg : PipelineConfig)
    (parse : String → Except String (List D)) (chunkEmbed : D → List V)
    (fsys : String → Option (List String)) (reset : Bool)
    (s : ChromaState V) : RunResult D V :=
  let startLog : LogRecord :=
    ⟨LogLevel.info, "Starting ingestion pipeline",
      [("reset_collection", toString reset)]⟩
  let lr := load_documents cfg.supported_formats parse cfg.data_directory
              (fsys cfg.data_directory)
  match lr.result with
  | Except.error e =>
      { result := Except.error e
        state := s
        logs := startLog :: lr.logs
                 ++ [⟨LogLevel.error, "Ingestion pipeline failed",
                       [("error", e)]⟩]
        effects := lr.effects }
  | Except.ok docs =>
      if docs.isEmpty then
        { result := Except.ok none
          state := s
          logs := startLog :: lr.logs
                   ++ [⟨LogLevel.error, "No documents loaded", []⟩]
          effects := lr.effects }
      else
        let sr := create_vector_store cfg.vector_db reset s
        let s₂ := upsert_vectors sr.state cfg.vector_db.collection_name
                    (docs.flatMap chunkEmbed)
        { result := Except.ok (some docs)
          state := s₂
          logs := startLog :: lr.logs ++ sr.logs
                   ++ [⟨LogLevel.info, "Building vector index...", []⟩,
                       ⟨LogLevel.info, "Vector index built successfully", []⟩,
                       ⟨LogLevel.info,
                         "Ingestion pipeline completed successfully",
                         [("total_documents", toString docs.length)]⟩]
          effects := lr.effects ++ sr.effects
                      ++ [Effect.buildIndex docs] }

/-- Effects of `IngestionPipeline.__init__` relevant to its I/O behaviour:
reading a file and reading an environment variable. -/
inductive InitEffect : Type
  | readFile (path : String)
  | getEnv (name : String)
deriving DecidableEq

/-- Whether a constructor effect is file input/output. -/
def isFileRead : InitEffect → Bool
  | InitEffect.readFile _ => true
  | _ => false

/-- Python truthiness of `os.getenv`: `None` and the empty string are
falsy. -/
def envTruthy (v : Option String) : Bool :=
  match v with
  | none => false
  | some k => !(k = "")

/-- Model of `IngestionPipeline.__init__`, as a trace of its I/O effects in program
order plus its outcome. The constructor first opens and parses the
configuration file at `config_path`, initialises the logger (console only,
no file I/O), then reads the environment variable named by
`embedding.api_key_env` and raises a ValueError when it is unset or empty;
on success it configures the embedding model, LLM, node parser and Docling
reader, none of which performs file I/O here. `api_key_env` is the value of
`self.config['embedding']['api_key_env']`; `env` models `os.getenv`. -/
def pipeline_init (config_path : String) (api_key_env : String)
    (env : String → Option String) : Except String Unit × List InitEffect :=
  let effs := [InitEffect.readFile config_path, InitEffect.getEnv api_key_env]
  if envTruthy (env api_key_env) then
    (Except.ok (), effs)
  else
    (Except.error ("Environment variable " ++ api_key_env ++ " not set"),
     effs)

theorem matchedFiles_cons (e : String) (S : List String)
    (listing : List String) :
    matchedFiles (e :: S) listing
      = listing.filter (globMatch e) ++ matchedFiles S listing := by
  simp [matchedFiles, List.flatMap_cons]

theorem matchedFiles_nil (S : List String) : matchedFiles S [] = [] := by
  induction S with
  | nil => rfl
  | cons e S ih => rw [matchedFiles_cons, ih, List.filter_nil]; rfl

theorem matchedFiles_append (S T : List String) (listing : List String) :
    matchedFiles (S ++ T) listing
      = matchedFiles S listing ++ matchedFiles T listing := by
  simp [matchedFiles, List.flatMap_append]

theorem mem_matchedFiles {S : List String} {listing : List String}
    {f : String} (h : f ∈ matchedFiles S listing) :
    ∃ ext ∈ S, globMatch ext f = true := by
  rcases List.mem_flatMap.mp h with ⟨ext, hext, hf⟩
  exact ⟨ext, hext, List.of_mem_filter hf⟩

theorem count_filter_ite {α : Type} [DecidableEq α] (p : α → Bool) (a : α)
    (l : List α) :
    (l.filter p).count a = if p a then l.count a else 0 := by
  by_cases h : p a = true
  · simp only [h, if_true]
    exact List.count_filter h
  · simp only [h, if_false]
    exact List.count_eq_zero.mpr fun hm => h (List.of_mem_filter hm)

theorem count_matchedFiles (S : List String) (listing : List String)
    (f : String) :
    (matchedFiles S listing).count f
      = S.countP (fun ext => globMatch ext f) * listing.count f := by
  induction S with
  | nil => simp [matchedFiles]
  | cons e S ih =>
    rw [matchedFiles_cons, List.count_append, ih, List.countP_cons]
    rw [count_filter_ite]
    by_cases h : globMatch e f = true
    · simp only [h, if_true, Nat.add_mul, Nat.one_mul]
      omega
    · simp [h]

theorem loadLoop_docs {D : Type} (parse : String → Except String (List D)) :
    ∀ fs : List String, (loadLoop parse fs).1 = fs.flatMap (okDocs parse) := by
  intro fs
  induction fs with
  | nil => rfl
  | cons f fs ih =>
    rw [List.flatMap_cons]
    show (loadLoop parse (f :: fs)).1 = okDocs parse f ++ fs.flatMap (okDocs parse)
    rw [← ih]
    simp only [loadLoop, okDocs]
    cases parse f <;> simp

theorem loadLoop_effects {D : Type}
    (parse : String → Except String (List D)) :
    ∀ fs : List String,
      (loadLoop parse fs).2.2 = fs.map Effect.parseFile := by
  intro fs
  induction fs with
  | nil => rfl
  | cons f fs ih =>
    rw [List.map_cons, ← ih]
    simp only [loadLoop]
    cases parse f <;> simp

theorem loadLoop_errorLogs {D : Type}
    (parse : String → Except String (List D)) :
    ∀ fs : List String,
      (loadLoop parse fs).2.1.filter isErrorRecord
        = (fs.filter fun f => !(parse f).isOk).map
            (fun f => loadErrorRecord f (errMsgOf parse f)) := by
  intro fs
  induction fs with
  | nil => rfl
  | cons f fs ih =>
    simp only [loadLoop]
    cases h : parse f with
    | ok ds =>
      have hc : List.filter (fun g => !(parse g).isOk) (f :: fs)
          = List.filter (fun g => !(parse g).isOk) fs := by
        simp [List.filter_cons, h, Except.isOk, Except.toBool]
      rw [hc, ← ih]
      simp [isErrorRecord]
    | error e =>
      have hc : List.filter (fun g => !(parse g).isOk) (f :: fs)
          = f :: List.filter (fun g => !(parse g).isOk) fs := by
        simp [List.filter_cons, h, Except.isOk, Except.toBool]
      rw [hc, List.map_cons, ← ih]
      simp [isErrorRecord, loadErrorRecord, errMsgOf, h]

theorem load_documents_docs {D : Type} (S : List String)
    (parse : String → Except String (List D)) (p : String)
    (names : List String) :
    (load_documents S parse p (some names)).result
      = Except.ok ((matchedFiles S names).flatMap (okDocs parse)) := by
  simp only [load_documents]
  by_cases h : (matchedFiles S names).isEmpty
  · rw [if_pos h]
    rw [List.isEmpty_iff.mp h]
    rfl
  · rw [if_neg h]
    simp [loadLoop_docs]

theorem load_documents_effects {D : Type} (S : List String)
    (parse : String → Except String (List D)) (p : String)
    (names : List String) :
    (load_documents S parse p (some names)).effects
      = (matchedFiles S names).map Effect.parseFile := by
  simp only [load_documents]
  by_cases h : (matchedFiles S names).isEmpty
  · rw [if_pos h]
    rw [List.isEmpty_iff.mp h]
    rfl
  · rw [if_neg h]
    simp [loadLoop_effects]

theorem load_documents_errorLogs {D : Type} (S : List String)
    (parse : String → Except String (List D)) (p : String)
    (names : List String) :
    (load_documents S parse p (some names)).logs.filter isErrorRecord
      = ((matchedFiles S names).filter fun f => !(parse f).isOk).map
          (fun f => loadErrorRecord f (errMsgOf parse f)) := by
  simp only [load_documents]
  by_cases h : (matchedFiles S names).isEmpty
  · rw [if_pos h]
    rw [List.isEmpty_iff.mp h]
    simp [isErrorRecord]
  · rw [if_neg h]
    simp only [List.filter_append, List.filter_cons, loadLoop_errorLogs]
    simp [isErrorRecord]

theorem load_documents_effects_countP {D : Type} (S : List String)
    (parse : String → Except String (List D)) (p : String)
    (listing : Option (List String)) (q : Effect D → Bool)
    (hq : ∀ f : String, q (Effect.parseFile f) = false) :
    (load_documents S parse p listing).effects.countP q = 0 := by
  cases listing with
  | none => rfl
  | some names =>
    rw [load_documents_effects, List.countP_map]
    exact List.countP_eq_zero.mpr fun a _ => by simp [Function.comp, hq]

theorem flatMap_filter_of_eq_nil {α β : Type} [DecidableEq α]
    (g : α → List β) (bad : α) (h : g bad = []) :
    ∀ l : List α, l.flatMap g = (l.filter fun x => !(x == bad)).flatMap g := by
  intro l
  induction l with
  | nil => rfl
  | cons a l ih =>
    rw [List.flatMap_cons, List.filter_cons]
    by_cases ha : a = bad
    · subst ha
      simp [h, ih]
    · have hb : (!(a == bad)) = true := by simp [ha]
      rw [hb, if_pos rfl, List.flatMap_cons, ih]

/-- C1: per-file error isolation in `load_documents`. If among the matched
files exactly one, `bad`, fails to parse (it occurs once in the matched
list and every other matched file parses successfully), then
`load_documents` returns normally (no exception propagates) with exactly
the documents of the other files, in order, and its log stream contains
exactly one error-level record, which names the failing file's path. -/
theorem load_documents_single_failure_isolation {D : Type}
    (S : List String) (parse : String → Except String (List D))
    (p bad msg : String) (names : List String)
    (hbad : parse bad = Except.error msg)
    (hcount : (matchedFiles S names).count bad = 1)
    (hgood : ∀ f ∈ matchedFiles S names, f ≠ bad → (parse f).isOk = true) :
    (load_documents S parse p (some names)).result
      = Except.ok
          (((matchedFiles S names).filter fun g => !(g == bad)).flatMap
            (okDocs parse))
    ∧ (load_documents S parse p (some names)).logs.filter isErrorRecord
      = [loadErrorRecord bad msg] := by
  have hOkNil : okDocs parse bad = [] := by simp [okDocs, hbad]
  constructor
  · rw [load_documents_docs,
        flatMap_filter_of_eq_nil (okDocs parse) bad hOkNil]
  · rw [load_documents_errorLogs]
    have hcongr : ∀ g ∈ matchedFiles S names,
        (!(parse g).isOk) = (g == bad) := by
      intro g hg
      by_cases hgb : g = bad
      · subst hgb
        simp [hbad, Except.isOk, Except.toBool]
      · simp [hgood g hg hgb, hgb]
    rw [List.filter_congr hcongr, List.filter_beq, hcount,
        List.replicate_one]
    simp [errMsgOf, hbad]

/-- Parser fixture for the C1 witness: every file yields one document (its
own path) except "b.txt", which raises. -/
def parseOneBad : String → Except String (List String) :=
  fun f => if f == "b.txt" then Except.error "boom" else Except.ok [f]

/-- Witness for C1 at a concrete directory of three matched files with one
failing parse. -/
theorem load_documents_single_failure_isolation_witness :
    (parseOneBad "b.txt" = Except.error "boom"
      ∧ (matchedFiles ["txt"] ["a.txt", "b.txt", "c.txt"]).count "b.txt" = 1
      ∧ (∀ f ∈ matchedFiles ["txt"] ["a.txt", "b.txt", "c.txt"],
          f ≠ "b.txt" → (parseOneBad f).isOk = true))
    ∧ ((load_documents ["txt"] parseOneBad "data"
          (some ["a.txt", "b.txt", "c.txt"])).result
        = Except.ok
            (((matchedFiles ["txt"] ["a.txt", "b.txt", "c.txt"]).filter
                fun g => !(g == "b.txt")).flatMap (okDocs parseOneBad))
      ∧ (load_documents ["txt"] parseOneBad "data"
            (some ["a.txt", "b.txt", "c.txt"])).logs.filter isErrorRecord
        = [loadErrorRecord "b.txt" "boom"]) :=
  ⟨⟨rfl, by decide, by decide⟩,
   load_documents_single_failure_isolation ["txt"] parseOneBad "data"
     "b.txt" "boom" ["a.txt", "b.txt", "c.txt"] rfl (by decide) (by decide)⟩

/-- C5: `load_documents` passes to the parser only files matching a
configured extension: every parser invocation recorded in the effect trace
is on a file whose name ends in "." followed by one of the configured
extension strings (case-sensitive exact match). -/
theorem load_documents_only_supported {D : Type} (S : List String)
    (parse : String → Except String (List D)) (p f : String)
    (names : List String)
    (h : Effect.parseFile f ∈ (load_documents S parse p (some names)).effects) :
    ∃ ext ∈ S, globMatch ext f = true := by
  rw [load_documents_effects] at h
  rcases List.mem_map.mp h with ⟨g, hg, hgf⟩
  injection hgf with hh
  subst hh
  exact mem_matchedFiles hg

/-- Witness for C5 at a concrete directory. -/
theorem load_documents_only_supported_witness :
    Effect.parseFile "a.txt"
        ∈ (load_documents ["txt"] (fun _ => Except.ok ([] : List Unit)) "d"
            (some ["a.txt", "b.md"])).effects
    ∧ ∃ ext ∈ ["txt"], globMatch ext "a.txt" = true :=
  ⟨by decide,
   load_documents_only_supported ["txt"] (fun _ => Except.ok ([] : List Unit))
     "d" "a.txt" ["a.txt", "b.md"] (by decide)⟩

/-- C6: `load_documents` on a path that names no existing directory logs
one error record, returns the empty sequence and does not raise; an empty
directory likewise yields the empty sequence (with a warning) and does not
raise. -/
theorem load_documents_missing_or_empty_dir {D : Type} (S : List String)
    (parse : String → Except String (List D)) (p : String) :
    load_documents S parse p none
      = ⟨Except.ok [],
         [⟨LogLevel.error, "Data directory does not exist", [("path", p)]⟩],
         []⟩
    ∧ load_documents S parse p (some [])
      = ⟨Except.ok [],
         [⟨LogLevel.warning, "No documents found", [("directory", p)]⟩],
         []⟩ := by
  constructor
  · rfl
  · simp [load_documents, matchedFiles_nil]

/-- C9 counterexample: with formats ["pdf", "txt"] and a directory whose
filesystem-enumeration order is ["a.txt", "b.pdf"], the files are passed to
the parser as ["b.pdf", "a.txt"] (grouped by extension), not in the
directory's enumeration order, refuting the claim that the parser order is
the filesystem-enumeration order. -/
theorem load_documents_order_not_fs_order :
    (load_documents ["pdf", "txt"] (fun _ => Except.ok ([] : List Unit))
        "data" (some ["a.txt", "b.pdf"])).effects
      ≠ ((["a.txt", "b.pdf"].filter
            (hasExtensionIn ["pdf", "txt"])).map Effect.parseFile) := by
  decide

/-- C9 (amended): files are passed to the parser grouped by extension, the
groups following the order of `supported_formats`; within one extension
group the order is the filesystem-enumeration order of the directory (the
group is an order-preserving sublist of the listing). -/
theorem load_documents_order_grouped_by_extension {D : Type}
    (S : List String) (e : String)
    (parse : String → Except String (List D)) (p : String)
    (names : List String) :
    (load_documents (e :: S) parse p (some names)).effects
      = (names.filter (globMatch e)).map Effect.parseFile
         ++ (load_documents S parse p (some names)).effects
    ∧ List.Sublist (names.filter (globMatch e)) names := by
  constructor
  · rw [load_documents_effects, load_documents_effects, matchedFiles_cons,
        List.map_append]
  · exact List.filter_sublist names

/-- C10: a duplicated extension in `supported_formats` duplicates the
enumeration. The number of times a file is enumerated equals (occurrences
of matching extensions in the format list) times (its occurrences in the
directory listing); duplicating the whole format list concatenates two
copies of the matched-file list; the parser is invoked once per enumerated
occurrence; and the returned documents are the concatenation, over the
enumerated occurrences in order, of each parse's documents — so a file
matched twice contributes its documents twice. -/
theorem load_documents_duplicate_formats {D : Type} [DecidableEq D]
    (S : List String)
    (parse : String → Except String (List D)) (p f : String)
    (names : List String) :
    (matchedFiles S names).count f
      = S.countP (fun ext => globMatch ext f) * names.count f
    ∧ matchedFiles (S ++ S) names
      = matchedFiles S names ++ matchedFiles S names
    ∧ (load_documents S parse p (some names)).effects.count
        (Effect.parseFile f)
      = (matchedFiles S names).count f
    ∧ (load_documents S parse p (some names)).result
      = Except.ok ((matchedFiles S names).flatMap (okDocs parse)) := by
  refine ⟨count_matchedFiles S names f, matchedFiles_append S S names, ?_,
    load_documents_docs S parse p names⟩
  rw [load_documents_effects]
  exact List.count_map_of_injective _ _ (fun a b hab => by injection hab) f

/-- C2: when `load_documents` comes back empty, `run` logs the
"No documents loaded" error and returns no index (`Except.ok none` — a
normal return, not a raise), leaves the collection map untouched, performs
no vector-store effect (so the store is never opened) and no index-build
effect, for every configuration, reset flag and prior store state. -/
theorem run_empty_load_aborts {D V : Type} (cfg : PipelineConfig)
    (parse : String → Except String (List D)) (chunkEmbed : D → List V)
    (fsys : String → Option (List String)) (reset : Bool)
    (s : ChromaState V)
    (h : (load_documents cfg.supported_formats parse cfg.data_directory
            (fsys cfg.data_directory)).result = Except.ok ([] : List D)) :
    (run cfg parse chunkEmbed fsys reset s).result = Except.ok none
    ∧ (run cfg parse chunkEmbed fsys reset s).state = s
    ∧ (⟨LogLevel.error, "No documents loaded", []⟩ : LogRecord)
        ∈ (run cfg parse chunkEmbed fsys reset s).logs
    ∧ (run cfg parse chunkEmbed fsys reset s).effects.countP isStoreEffect
        = 0
    ∧ (run cfg parse chunkEmbed fsys reset s).effects.countP
        isBuildIndexEffect = 0 := by
  have he : (run cfg parse chunkEmbed fsys reset s).effects
      = (load_documents cfg.supported_formats parse cfg.data_directory
          (fsys cfg.data_directory)).effects := by
    simp [run, h]
  refine ⟨by simp [run, h], by simp [run, h], by simp [run, h], ?_, ?_⟩
  · rw [he]
    exact load_documents_effects_countP _ _ _ _ _ fun f => rfl
  · rw [he]
    exact load_documents_effects_countP _ _ _ _ _ fun f => rfl

/-- Witness for C2 at a concrete configuration whose data directory does
not exist. -/
theorem run_empty_load_aborts_witness :
    (load_documents (PipelineConfig.mk ["txt"] "data"
          ⟨"localhost", 8000, "docs", none⟩).supported_formats
        (fun _ => Except.ok ([] : List String))
        (PipelineConfig.mk ["txt"] "data"
          ⟨"localhost", 8000, "docs", none⟩).data_directory
        ((fun _ => none) (PipelineConfig.mk ["txt"] "data"
          ⟨"localhost", 8000, "docs", none⟩).data_directory)).result
      = Except.ok ([] : List String)
    ∧ ((run (PipelineConfig.mk ["txt"] "data"
            ⟨"localhost", 8000, "docs", none⟩)
          (fun _ => Except.ok ([] : List String))
          (fun d => [d.length]) (fun _ => none) false
          (fun _ => (none : Option (List Nat)))).result = Except.ok none
      ∧ (run (PipelineConfig.mk ["txt"] "data"
            ⟨"localhost", 8000, "docs", none⟩)
          (fun _ => Except.ok ([] : List String))
          (fun d => [d.length]) (fun _ => none) false
          (fun _ => (none : Option (List Nat)))).state
        = (fun _ => (none : Option (List Nat)))
      ∧ (⟨LogLevel.error, "No documents loaded", []⟩ : LogRecord)
          ∈ (run (PipelineConfig.mk ["txt"] "data"
              ⟨"localhost", 8000, "docs", none⟩)
            (fun _ => Except.ok ([] : List String))
            (fun d => [d.length]) (fun _ => none) false
            (fun _ => (none : Option (List Nat)))).logs
      ∧ (run (PipelineConfig.mk ["txt"] "data"
            ⟨"localhost", 8000, "docs", none⟩)
          (fun _ => Except.ok ([] : List String))
          (fun d => [d.length]) (fun _ => none) false
          (fun _ => (none : Option (List Nat)))).effects.countP isStoreEffect
        = 0
      ∧ (run (PipelineConfig.mk ["txt"] "data"
            ⟨"localhost", 8000, "docs", none⟩)
          (fun _ => Except.ok ([] : List String))
          (fun d => [d.length]) (fun _ => none) false
          (fun _ => (none : Option (List Nat)))).effects.countP
          isBuildIndexEffect = 0) :=
  ⟨rfl,
   run_empty_load_aborts (PipelineConfig.mk ["txt"] "data"
       ⟨"localhost", 8000, "docs", none⟩)
     (fun _ => Except.ok ([] : List String)) (fun d => [d.length])
     (fun _ => none) false (fun _ => (none : Option (List Nat))) rfl⟩

/-- C3: reset is idempotent in `create_vector_store`. With `reset` set the
deletion of the named collection is always attempted (the `deleteColl`
effect is in the trace); a deletion failure — in particular the collection
not existing — is swallowed, so the call returns normally for every prior
store state; afterwards the named collection exists and is empty; and
resetting again from the resulting state returns normally with the same
outcome. -/
theorem create_vector_store_reset_idempotent {D V : Type}
    (cfg : VectorDbConfig) (s : ChromaState V) :
    (create_vector_store (D := D) cfg true s).state cfg.collection_name
      = some []
    ∧ Effect.deleteColl cfg.collection_name
        ∈ (create_vector_store (D := D) cfg true s).effects
    ∧ (create_vector_store (D := D) cfg true
        ((create_vector_store (D := D) cfg true s).state)).state
        cfg.collection_name = some [] := by
  have key : ∀ t : ChromaState V,
      (create_vector_store (D := D) cfg true t).state cfg.collection_name
        = some [] := by
    intro t
    simp only [create_vector_store]
    cases ht : t cfg.collection_name with
    | some vs => simp [delete_collection, ht, get_or_create_collection]
    | none => simp [delete_collection, ht, get_or_create_collection]
  refine ⟨key s, ?_, key _⟩
  simp only [create_vector_store]
  cases hs : delete_collection s cfg.collection_name <;>
    by_cases hh : cfg.host = "localhost" <;> simp [hh]

/-- C4: ingestion is additive without reset. When `run` is invoked with
`reset = false` on a store whose named collection already holds the vectors
of a prior run, and loading yields a non-empty document list, no collection
deletion is ever attempted and the final collection holds the old vectors
with the new run's chunk vectors appended after them. -/
theorem run_no_reset_additive {D V : Type} (cfg : PipelineConfig)
    (parse : String → Except String (List D)) (chunkEmbed : D → List V)
    (fsys : String → Option (List String)) (s : ChromaState V)
    (old : List V) (docs : List D)
    (hold : s cfg.vector_db.collection_name = some old)
    (hload : (load_documents cfg.supported_formats parse cfg.data_directory
                (fsys cfg.data_directory)).result = Except.ok docs)
    (hne : docs ≠ []) :
    (run cfg parse chunkEmbed fsys false s).result = Except.ok (some docs)
    ∧ (run cfg parse chunkEmbed fsys false s).state
        cfg.vector_db.collection_name
      = some (old ++ docs.flatMap chunkEmbed)
    ∧ (run cfg parse chunkEmbed fsys false s).effects.countP isDeleteEffect
        = 0 := by
  have hie : docs.isEmpty = false := List.isEmpty_eq_false.mpr hne
  have hst : (create_vector_store (D := D) cfg.vector_db false s).state = s := by
    simp [create_vector_store, get_or_create_collection, hold]
  refine ⟨by simp [run, hload, hie], ?_, ?_⟩
  · simp only [run, hload, hie, Bool.false_eq_true, if_false]
    simp [hst, upsert_vectors, hold]
  · simp only [run, hload, hie, Bool.false_eq_true, if_false]
    simp only [List.countP_append]
    rw [load_documents_effects_countP _ _ _ _ _ (fun f => rfl)]
    by_cases hh : cfg.vector_db.host = "localhost" <;>
      simp [create_vector_store, hh, isDeleteEffect]

/-- Witness for C4 at a concrete configuration: the collection "docs"
already holds the vector 7 and a second run without reset appends the
chunk vector of the single loaded document after it. -/
theorem run_no_reset_additive_witness :
    ((fun n => if n = "docs" then some [7] else none) :
        ChromaState Nat) (VectorDbConfig.mk "localhost" 8000 "docs"
          none).collection_name = some [7]
    ∧ (load_documents ["txt"] (fun f => Except.ok [f]) "data"
          ((fun q => if q = "data" then some ["a.txt"] else none) "data")).result
        = Except.ok ["a.txt"]
    ∧ (["a.txt"] : List String) ≠ []
    ∧ ((run (PipelineConfig.mk ["txt"] "data"
            (VectorDbConfig.mk "localhost" 8000 "docs" none))
          (fun f => Except.ok [f]) (fun d => [d.length])
          (fun q => if q = "data" then some ["a.txt"] else none) false
          (fun n => if n = "docs" then some [7] else none)).result
        = Except.ok (some ["a.txt"])
      ∧ (run (PipelineConfig.mk ["txt"] "data"
            (VectorDbConfig.mk "localhost" 8000 "docs" none))
          (fun f => Except.ok [f]) (fun d => [d.length])
          (fun q => if q = "data" then some ["a.txt"] else none) false
          (fun n => if n = "docs" then some [7] else none)).state
          (VectorDbConfig.mk "localhost" 8000 "docs" none).collection_name
        = some ([7] ++ (["a.txt"] : List String).flatMap
            (fun d => [d.length]))
      ∧ (run (PipelineConfig.mk ["txt"] "data"
            (VectorDbConfig.mk "localhost" 8000 "docs" none))
          (fun f => Except.ok [f]) (fun d => [d.length])
          (fun q => if q = "data" then some ["a.txt"] else none) false
          (fun n => if n = "docs" then some [7] else none)).effects.countP
          isDeleteEffect = 0) :=
  ⟨rfl, rfl, by decide,
   run_no_reset_additive (PipelineConfig.mk ["txt"] "data"
       (VectorDbConfig.mk "localhost" 8000 "docs" none))
     (fun f => Except.ok [f]) (fun d => [d.length])
     (fun q => if q = "data" then some ["a.txt"] else none)
     (fun n => if n = "docs" then some [7] else none) [7] ["a.txt"]
     rfl rfl (by decide)⟩

/-- C7 counterexample: with the API-key environment variable unset,
construction does fail, but its effect trace up to the raise contains one
file read (the configuration file is opened first), refuting the clause
that the failure occurs before any file I/O. -/
theorem pipeline_init_missing_key_reads_config_first :
    (pipeline_init "../config.yaml" "GOOGLE_API_KEY" fun _ => none).1.isOk
      = false
    ∧ (pipeline_init "../config.yaml" "GOOGLE_API_KEY"
        fun _ => none).2.countP isFileRead = 1 := by
  decide

/-- C7 (amended): if the environment variable named by
`embedding.api_key_env` is unset or empty, `IngestionPipeline`
construction raises the configuration ValueError naming that variable, and
the only file I/O preceding the failure is the read of the configuration
file itself — in particular no data-directory or document file is
touched. -/
theorem pipeline_init_missing_key_raises (p k : String)
    (env : String → Option String)
    (h : env k = none ∨ env k = some "") :
    (pipeline_init p k env).1
      = Except.error ("Environment variable " ++ k ++ " not set")
    ∧ (pipeline_init p k env).2.filter isFileRead
      = [InitEffect.readFile p] := by
  rcases h with h | h <;> simp [pipeline_init, envTruthy, h, isFileRead]

/-- Witness for the amended C7 with the variable unset. -/
theorem pipeline_init_missing_key_raises_witness :
    ((fun _ => (none : Option String)) "GOOGLE_API_KEY" = none
      ∨ (fun _ => (none : Option String)) "GOOGLE_API_KEY" = some "")
    ∧ ((pipeline_init "../config.yaml" "GOOGLE_API_KEY"
          fun _ => (none : Option String)).1
        = Except.error
            ("Environment variable " ++ "GOOGLE_API_KEY" ++ " not set")
      ∧ (pipeline_init "../config.yaml" "GOOGLE_API_KEY"
          fun _ => (none : Option String)).2.filter isFileRead
        = [InitEffect.readFile "../config.yaml"]) :=
  ⟨Or.inl rfl,
   pipeline_init_missing_key_raises "../config.yaml" "GOOGLE_API_KEY"
     (fun _ => none) (Or.inl rfl)⟩

/-- C8: backend selection in `create_vector_store`. The backend equals the
embedded persistent client rooted at the configured persist directory
(defaulting to "./chroma_db" when unset) exactly when the configured host
is the sentinel "localhost", and the remote HTTP client at host:port
otherwise; the directory-creation effect (`os.makedirs`, create if absent)
is performed exactly in the localhost case, on that same directory. -/
theorem create_vector_store_backend_selection {D V : Type}
    (cfg : VectorDbConfig) (reset : Bool) (s : ChromaState V) :
    (create_vector_store (D := D) cfg reset s).backend
      = (if cfg.host = "localhost" then
          Backend.persistent (cfg.persist_directory.getD "./chroma_db")
        else Backend.http cfg.host cfg.port)
    ∧ (create_vector_store (D := D) cfg reset s).effects.filter
        isMakeDirsEffect
      = (if cfg.host = "localhost" then
          [Effect.makeDirs (cfg.persist_directory.getD "./chroma_db")]
        else []) := by
  constructor
  · rfl
  · simp only [create_vector_store]
    cases reset <;>
      [skip; cases hs : delete_collection s cfg.collection_name] <;>
      by_cases hh : cfg.host = "localhost" <;>
      simp [hh, isMakeDirsEffect]

end Ingest
